import Mathlib

/-!
Shallow embedding of the transfer-orchestration layer of the
`to-data-library` repository (`to_data_library/data/transfer.py`,
`to_data_library/data/_helper.py`, `to_data_library/data/s3.py`,
`to_data_library/data/gs.py`).

Remote backends (S3, Google Cloud Storage, BigQuery) are modelled as
oracles: an environment record states, for each remote call the code
makes, whether it succeeds and what data it yields.  The local file
system is a set of paths threaded through each orchestration call, and
every externally visible action (download, upload, load submission,
local file removal, error log) is recorded in an event trace, so that
ordering and cleanup properties can be stated about whole runs.

Machine specifics that the claims do not touch (pagination internals of
the key lister, byte-level file IO, the exact LoadJobConfig fields that
have no control-flow effect such as `autodetect`, `max_bad_records`,
`allow_quoted_newlines`, `schema`, `field_delimiter` and
`skip_leading_rows`) are abstracted; every branch the claims depend on
is translated from the Python source.
-/

set_option autoImplicit false

namespace ToDataLibrary

/-! ## Python-semantics helpers -/

/-- Python truthiness of an optional string argument (`if x:`):
`None` and the empty string are falsy, any other string is truthy. -/
def truthy : Option String → Bool
  | none => false
  | some s => !s.isEmpty

/-- Python `set.add` on a set represented as a duplicate-free list in
insertion order (only membership and cardinality of these sets are ever
consumed by the code). -/
def pyInsert (xs : List String) (x : String) : List String :=
  if x ∈ xs then xs else xs ++ [x]

/-- `key.replace("/", "_")` (single-character pattern, so a character map). -/
def pyReplaceSlash (s : String) : String :=
  String.mk (s.data.map (fun c => if c = '/' then '_' else c))

/-- `os.path.basename`: the part of the path after the last `/`. -/
def pyBasename (s : String) : String :=
  String.mk (s.data.foldl (fun acc c => if c = '/' then [] else acc ++ [c]) [])

/-- Suffix of a character list starting at its last `.` (inclusive),
or `none` when it has no `.`. -/
def afterLastDot (cs : List Char) : Option (List Char) :=
  cs.foldl
    (fun acc c =>
      match acc with
      | none => if c = '.' then some ['.'] else none
      | some l => if c = '.' then some ['.'] else some (l ++ [c]))
    none

/-- `get_file_format` of `transfer.py` (multi-file `s3_to_bq` branch):
`os.path.splitext(filename)[1].lower()`.  Python's `splitext` takes the
extension from the last dot of the final path component, ignoring the
component's leading dots. -/
def getFileFormat (s : String) : String :=
  let base := (pyBasename s).data
  let rest := base.dropWhile (fun c => c = '.')
  match afterLastDot rest with
  | some ext => String.mk (ext.map Char.toLower)
  | none => ""

/-- Python `str.split(".")`: split on every dot, keeping empty parts. -/
def pySplitDot (s : String) : List String :=
  (s.data.foldr
    (fun c acc =>
      match acc with
      | cur :: rest => if c = '.' then [] :: cur :: rest else (c :: cur) :: rest
      | [] => [[c]])
    [[]]).map (fun cs => String.mk cs)

/-- The local staging path used by `s3_to_bq`:
`os.path.join("/tmp/", key.replace("/", "_"))`. -/
def tmpPath (k : String) : String := "/tmp/" ++ pyReplaceSlash k

/-! ## `_helper.py` -/

/-- `get_bq_write_disposition` (`_helper.py`, lines 16-33): a dictionary
lookup with `.get(write_preference, None)`, i.e. the unmapped case
returns Python `None` (here `none`) and no exception is raised. -/
def get_bq_write_disposition (write_preference : String) : Option String :=
  if write_preference = "truncate" then some "WRITE_TRUNCATE"
  else if write_preference = "append" then some "WRITE_APPEND"
  else if write_preference = "empty" then some "WRITE_EMPTY"
  else none

/-- Result of `merge_files` (`_helper.py`, lines 4-13): the function
opens `output_file_path if output_file_path else 'merged.csv'` for
writing, writes the contents of the input files into it in list order,
and returns the constant `'merged.csv'`.  `contents` is the file-system
oracle giving the byte content of each input path. -/
structure MergeResult where
  returned : String
  writtenPath : String
  writtenContent : List Nat
deriving DecidableEq, Repr

/-- `merge_files(files_path, output_file_path=None)` of `_helper.py`. -/
def merge_files (contents : String → List Nat) (files_path : List String)
    (output_file_path : Option String) : MergeResult :=
  let output := "merged.csv"
  let target := if truthy output_file_path then output_file_path.getD "" else output
  { returned := output
    writtenPath := target
    writtenContent := files_path.foldl (fun acc p => acc ++ contents p) [] }

/-! ## Partitioned-table addressing

The partitioning `if/elif` chain duplicated at `transfer.py` lines
140-154 (`gs_to_bq`, error branch exits via `sys.exit(1)`), 662-680 and
879-897 (`s3_to_bq`, error branch raises `ValueError`).  `none` is the
error branch; the success value is the effective table id together with
the `time_partitioning` descriptor assigned to the job config. -/

structure TimePartitioning where
  granularity : String
  field : Option String
deriving DecidableEq, Repr

def applyPartitioning (tableId : String) (partitionDate partitionField : Option String)
    (writePreference : String) : Option (String × Option TimePartitioning) :=
  if truthy partitionDate && !truthy partitionField then
    some (tableId ++ "$" ++ partitionDate.getD "", some ⟨"DAY", none⟩)
  else if truthy partitionDate && truthy partitionField then
    some (tableId ++ "$" ++ partitionDate.getD "", some ⟨"DAY", partitionField⟩)
  else if truthy partitionField && !truthy partitionDate && writePreference = "truncate" then
    none
  else
    some (tableId, none)

/-- The source-format `if/elif` chain (`transfer.py` lines 170-180,
688-700, 904-916): maps the `source_format` argument to the BigQuery
source-format constant, `none` being the `else` branch that logs and
aborts. -/
def sourceFormatOf (sourceFormat : String) : Option String :=
  if sourceFormat = "CSV" then some "CSV"
  else if sourceFormat = "JSON" then some "NEWLINE_DELIMITED_JSON"
  else if sourceFormat = "AVRO" then some "AVRO"
  else if sourceFormat = "PARQUET" then some "PARQUET"
  else none

/-! ## `bq_to_gs` (`transfer.py`, lines 28-76) -/

/-- Backend oracle for `bq_to_gs`: the blobs already present in the
destination bucket, the blobs the extract job writes under
`{table_id}_*`, and whether the extract job (whose completion the code
awaits with `extract_job.result()`) succeeds. -/
structure BqToGsEnv where
  preBlobs : List String
  producedBlobs : List String
  extractOk : Bool

/-- `bq_to_gs(table, bucket_name, ...)`: splits the table name, submits
the extract job, waits for it, then lists **all** blobs of the bucket
(`storage_client.list_blobs(bucket_name)`, line 75 — no prefix filter)
and returns their `gs://` URIs.  A failed extract (or a table name that
does not split into three parts) raises, modelled by `.error ()`. -/
def bq_to_gs (env : BqToGsEnv) (table bucketName : String) :
    Except Unit (List String) :=
  match pySplitDot table with
  | [_project, _dataset, _tableId] =>
    if env.extractOk then
      let bucketAfter := env.preBlobs ++ env.producedBlobs
      .ok (bucketAfter.map (fun n => "gs://" ++ bucketName ++ "/" ++ n))
    else .error ()
  | _ => .error ()

/-! ## Runs: events, local disk, outcome -/

/-- Outcome of one call to `s3.Client.download` (`s3.py`, lines 27-56):
the method itself catches `botocore.exceptions.ClientError`, logs it and
calls `sys.exit(1)`; any other exception from `bucket.download_file`
propagates to the caller.  Note the method has **no** return statement,
so on success it returns Python `None`. -/
inductive DlRes
  | ok
  | clientError
  | excOther
deriving DecidableEq, Repr

/-- One externally visible action of an orchestration call. -/
inductive Ev
  | listKeys (keys : List String)
  | s3Download (key : String) (dest : String) (res : DlRes)
  | gsUpload (src : Option String) (bucket : String) (name : String) (ok : Bool)
  | createDataset (dataset : String)
  | bqLoad (uris : List String) (tableId : String)
      (writeDisposition : Option String) (ok : Bool)
  | removeLocal (path : String)
  | logError (msg : String)
deriving DecidableEq, Repr

/-- Python exceptions the modelled code can raise. -/
inductive PyExc
  | valueError (msg : String)
  | fileNotFoundError (msg : String)
  | runtimeError (msg : String)
  | typeError
  | nameError
deriving DecidableEq, Repr

/-- How an orchestration call ends: normal return, the caught-load
`return False, str(e)` tuple, a raised exception, or process exit via
`sys.exit(1)` (raised as `SystemExit`, which `except Exception` does not
catch). -/
inductive Outcome
  | ok
  | retFailure (msg : String)
  | raised (e : PyExc)
  | sysExit
deriving DecidableEq, Repr

/-- In-flight state of a call: the event trace so far and the set of
local files currently on disk. -/
structure St where
  events : List Ev
  disk : List String
deriving DecidableEq, Repr

def St.emit (s : St) (e : Ev) : St := { s with events := s.events ++ [e] }

/-- A download writes its destination file. -/
def St.addFile (s : St) (p : String) : St := { s with disk := pyInsert s.disk p }

/-- `if os.path.exists(p): os.remove(p)` — the cleanup idiom used by
`s3_to_bq` and `s3_to_gs`. -/
def St.rmIfExists (s : St) (p : String) : St :=
  if p ∈ s.disk then
    { events := s.events ++ [.removeLocal p], disk := s.disk.filter (fun q => q ≠ p) }
  else s

/-- The `for f in ...: if os.path.exists(f): os.remove(f)` loops. -/
def cleanupAll (s : St) (fs : List String) : St := fs.foldl St.rmIfExists s

/-- A finished orchestration call. -/
structure Run where
  events : List Ev
  disk : List String
  outcome : Outcome
deriving DecidableEq, Repr

def Run.ofSt (s : St) (o : Outcome) : Run := ⟨s.events, s.disk, o⟩

def Ev.isDownload : Ev → Bool
  | .s3Download .. => true
  | _ => false

def Ev.isLoad : Ev → Bool
  | .bqLoad .. => true
  | _ => false

def Ev.isUpload : Ev → Bool
  | .gsUpload .. => true
  | _ => false

/-! ## `s3_to_bq` (`transfer.py`, lines 528-947) -/

/-- Backend oracle for `s3_to_bq`.  `listing` is the key list returned
by `_get_keys_in_s3_bucket` (whose boto3 pagination and regex filtering
are outside the model); `download` gives the outcome of
`s3.Client.download` per key; `fpOk`/`fingerprint` say whether reading
the structural fingerprint of the staged file at a local path succeeds
and what canonical value it has (CSV header line, frozen JSON key set,
Parquet or Avro `(name, type)` schema tuple, each encoded as one opaque
string); `gsUploadOk` gives the outcome of the staging upload per key;
`loadOk`/`loadErrMsg` give the outcome of
`bq_client.load_table_from_uris`.  `create_dataset` is not in the
oracle: the code swallows the `Conflict` ("already exists") case and the
claims do not exercise other dataset failures. -/
structure S3Env where
  listing : List String
  download : String → DlRes
  fpOk : String → Bool
  fingerprint : String → String
  gsUploadOk : String → Bool
  loadOk : Bool
  loadErrMsg : String

/-- Arguments of `Client.s3_to_bq` that affect control flow or the
claims.  Config-only parameters (`auto_detect`, `separator`,
`skip_leading_rows`, `schema`, `max_bad_records`) are omitted: they are
copied into the job config and never branch. -/
structure S3ToBqArgs where
  s3Key : Option String
  objectName : Option String
  bqTable : String
  writePreference : String
  partitionDate : Option String
  partitionField : Option String
  sourceFormat : String
  gsBucketName : Option String
  gsFileName : Option String
  multiFileLimit : Nat
  allowMultiFile : Bool

/-- The shared tail of both `s3_to_bq` branches (`transfer.py` lines
646-731 and 864-947): split the table name, build the job config,
resolve partitioning, resolve the source format, ensure the dataset,
submit the load inside `try/except Exception/finally`, and delete the
given local files in the `finally`.  The duplicated Python blocks are
textually identical apart from the URI list and the cleanup list. -/
def loadStage (env : S3Env) (a : S3ToBqArgs) (st : St) (uris : List String)
    (cleanup : List String) : Run :=
  match pySplitDot a.bqTable with
  | [_project, datasetId, tableId] =>
    match applyPartitioning tableId a.partitionDate a.partitionField a.writePreference with
    | none =>
      Run.ofSt
        (st.emit (.logError "Error: if partition_field is supplied, partition_date must also be supplied"))
        (.raised (.valueError "partition_field supplied without partition_date"))
    | some (tableId2, _tp) =>
      match sourceFormatOf a.sourceFormat with
      | none =>
        Run.ofSt
          (st.emit (.logError ("Invalid SourceFormat entered: " ++ a.sourceFormat)))
          (.raised (.valueError ("Invalid SourceFormat entered: " ++ a.sourceFormat)))
      | some _fmt =>
        let st := st.emit (.createDataset datasetId)
        let st := st.emit
          (.bqLoad uris tableId2 (get_bq_write_disposition a.writePreference) env.loadOk)
        if env.loadOk then
          Run.ofSt (cleanupAll st cleanup) .ok
        else
          Run.ofSt (cleanupAll (st.emit (.logError ("Unexpected error occurred: " ++ env.loadErrMsg))) cleanup)
            (.retFailure env.loadErrMsg)
  | _ =>
    Run.ofSt st (.raised (.valueError "not enough values to unpack"))

/-- Accumulator of the multi-file fingerprint loop (`transfer.py` lines
779-804): the staged files (`temp_files`) and the Python sets
`formats`, `csv_headers`, `json_keys`, `parquet_schemas`,
`avro_schemas`. -/
structure Batch where
  st : St
  temps : List String
  fmts : List String
  csvH : List String
  jsonK : List String
  parqS : List String
  avroS : List String
deriving DecidableEq, Repr

/-- Body of the fingerprint loop for a key whose download succeeded:
record the staged file in `temp_files`, add its key-derived format to
`formats`, then run the `if/elif` chain that reads the structural
fingerprint for the four known formats (a read failure is caught by the
enclosing `except`, logged, and the loop continues). -/
def step1 (env : S3Env) (b : Batch) (k : String) : Batch :=
  let lf := tmpPath k
  let st := (b.st.emit (.s3Download k lf .ok)).addFile lf
  let fmt := getFileFormat k
  let b1 : Batch := { b with st := st, temps := b.temps ++ [lf], fmts := pyInsert b.fmts fmt }
  if fmt = ".csv" then
    if env.fpOk lf then { b1 with csvH := pyInsert b1.csvH (env.fingerprint lf) }
    else { b1 with st := b1.st.emit (.logError ("Failed to process " ++ k)) }
  else if fmt = ".json" then
    if env.fpOk lf then { b1 with jsonK := pyInsert b1.jsonK (env.fingerprint lf) }
    else { b1 with st := b1.st.emit (.logError ("Failed to process " ++ k)) }
  else if fmt = ".parquet" then
    if env.fpOk lf then { b1 with parqS := pyInsert b1.parqS (env.fingerprint lf) }
    else { b1 with st := b1.st.emit (.logError ("Failed to process " ++ k)) }
  else if fmt = ".avro" then
    if env.fpOk lf then { b1 with avroS := pyInsert b1.avroS (env.fingerprint lf) }
    else { b1 with st := b1.st.emit (.logError ("Failed to process " ++ k)) }
  else b1

/-- First multi-file loop (`transfer.py` lines 786-804): download every
key to `/tmp/` and fingerprint it via `step1`; a non-`ClientError`
failure is logged and the loop continues, while a `ClientError` inside
`s3.Client.download` exits the process. -/
def loop1 (env : S3Env) (keys : List String) (b : Batch) : Batch ⊕ Run :=
  match keys with
  | [] => .inl b
  | k :: rest =>
    let lf := tmpPath k
    match env.download k with
    | .clientError =>
      .inr (Run.ofSt ((b.st.emit (.s3Download k lf .clientError)).emit
        (.logError "botocore ClientError")) .sysExit)
    | .excOther =>
      let st := (b.st.emit (.s3Download k lf .excOther)).emit
        (.logError ("Failed to process " ++ k))
      loop1 env rest { b with st := st }
    | .ok =>
      loop1 env rest (step1 env b k)

/-- Accumulator of the multi-file upload loop (`transfer.py` lines
841-857): `gs_uris` and `local_files`. -/
structure Up where
  st : St
  gsUris : List String
  localFiles : List String
deriving DecidableEq, Repr

/-- Second multi-file loop (`transfer.py` lines 841-857): re-download
every key and upload it to the staging bucket; only keys whose upload
succeeds enter `gs_uris` and `local_files`.  Failures are logged
(`Failed to process {key}`) and skipped; a `ClientError` inside
`s3.Client.download` exits the process. -/
def loop2 (env : S3Env) (gsB : String) (gfn : Option String) (keys : List String)
    (u : Up) : Up ⊕ Run :=
  match keys with
  | [] => .inl u
  | k :: rest =>
    let lf := tmpPath k
    match env.download k with
    | .clientError =>
      .inr (Run.ofSt ((u.st.emit (.s3Download k lf .clientError)).emit
        (.logError "botocore ClientError")) .sysExit)
    | .excOther =>
      let st := (u.st.emit (.s3Download k lf .excOther)).emit
        (.logError ("Failed to process " ++ k))
      loop2 env gsB gfn rest { u with st := st }
    | .ok =>
      let st := (u.st.emit (.s3Download k lf .ok)).addFile lf
      let gsFile := if truthy gfn then gfn.getD "" ++ "_" ++ pyBasename k else k
      if env.gsUploadOk k then
        loop2 env gsB gfn rest
          { st := st.emit (.gsUpload (some lf) gsB gsFile true)
            gsUris := u.gsUris ++ ["gs://" ++ gsB ++ "/" ++ gsFile]
            localFiles := u.localFiles ++ [lf] }
      else
        let st := (st.emit (.gsUpload (some lf) gsB gsFile false)).emit
          (.logError ("Failed to process " ++ k))
        loop2 env gsB gfn rest { u with st := st }

/-- Multi-key branch of `s3_to_bq` (`transfer.py` lines 732-947). -/
def multiPath (env : S3Env) (a : S3ToBqArgs) (st : St) (keys : List String) : Run :=
  if !truthy a.gsBucketName then
    Run.ofSt
      (st.emit (.logError "gs_bucket_name must be provided to stage files in GCS before loading to BQ"))
      (.raised (.valueError "gs_bucket_name must be provided"))
  else
    match loop1 env keys ⟨st, [], [], [], [], [], []⟩ with
    | .inr r => r
    | .inl b =>
      if 1 < b.fmts.length then
        Run.ofSt (cleanupAll b.st b.temps)
          (.raised (.runtimeError "Files have different formats"))
      else if ".csv" ∈ b.fmts ∧ 1 < b.csvH.length then
        Run.ofSt (cleanupAll b.st b.temps)
          (.raised (.runtimeError "CSV files have different headers."))
      else if ".json" ∈ b.fmts ∧ 1 < b.jsonK.length then
        Run.ofSt (cleanupAll b.st b.temps)
          (.raised (.runtimeError "JSON files have different key sets."))
      else if ".parquet" ∈ b.fmts ∧ 1 < b.parqS.length then
        Run.ofSt (cleanupAll b.st b.temps)
          (.raised (.runtimeError "Parquet files have different schemas."))
      else if ".avro" ∈ b.fmts ∧ 1 < b.avroS.length then
        Run.ofSt (cleanupAll b.st b.temps)
          (.raised (.runtimeError "Avro files have different schemas."))
      else
        match loop2 env (a.gsBucketName.getD "") a.gsFileName keys ⟨b.st, [], []⟩ with
        | .inr r => r
        | .inl u =>
          if u.gsUris.isEmpty then
            Run.ofSt u.st
              (.raised (.runtimeError "No files were uploaded to GCS, aborting load to BigQuery."))
          else
            loadStage env a u.st u.gsUris u.localFiles

/-- Single-key branch of `s3_to_bq` (`transfer.py` lines 628-731).
Note the order of operations taken from the source: the S3 download
(line 631) happens **before** the `gs_bucket_name` presence check
(line 634), and the staging upload (line 643) happens before the
partitioning and source-format checks inside the load stage. -/
def singlePath (env : S3Env) (a : S3ToBqArgs) (st : St) (k : String) : Run :=
  let lf := tmpPath k
  match env.download k with
  | .clientError =>
    Run.ofSt ((st.emit (.s3Download k lf .clientError)).emit
      (.logError "botocore ClientError")) .sysExit
  | .excOther =>
    Run.ofSt (st.emit (.s3Download k lf .excOther)) (.raised (.valueError "download failed"))
  | .ok =>
    let st := (st.emit (.s3Download k lf .ok)).addFile lf
    if !truthy a.gsBucketName then
      Run.ofSt
        (st.emit (.logError "gs_bucket_name must be provided to stage file in GCS before loading to BQ"))
        (.raised (.valueError "gs_bucket_name must be provided"))
    else
      let gsB := a.gsBucketName.getD ""
      let gfn := if truthy a.gsFileName then a.gsFileName.getD "" else k
      if env.gsUploadOk k then
        let st := st.emit (.gsUpload (some lf) gsB gfn true)
        loadStage env a st ["gs://" ++ gsB ++ "/" ++ gfn] [lf]
      else
        Run.ofSt (st.emit (.gsUpload (some lf) gsB gfn false))
          (.raised (.valueError "upload failed"))

/-- `Client.s3_to_bq` (`transfer.py`, lines 528-947): deprecated
`object_name` fallback, key listing, the four pre-flight guards in
source order (empty listing, deprecated multi-match, `allow_multi_file`,
`multi_file_limit`), then the single-key or multi-key branch. -/
def s3_to_bq (env : S3Env) (a : S3ToBqArgs) (disk0 : List String) : Run :=
  let st0 : St := ⟨[], disk0⟩
  let s3KeyEff := if a.s3Key.isNone && a.objectName.isSome then a.objectName else a.s3Key
  match s3KeyEff with
  | none =>
    Run.ofSt st0 (.raised (.valueError "You must provide either s3_key or object_name."))
  | some _sk =>
    let keys := env.listing
    let st := st0.emit (.listKeys keys)
    match keys with
    | [] =>
      Run.ofSt st (.raised (.fileNotFoundError "No files found in S3 bucket"))
    | k :: rest =>
      if a.objectName.isSome ∧ 1 < (k :: rest).length then
        Run.ofSt st
          (.raised (.valueError "Multiple files matched for deprecated object_name parameter."))
      else if 1 < (k :: rest).length ∧ !a.allowMultiFile then
        Run.ofSt st
          (.raised (.valueError "Multiple files matched, but allow_multi_file is False."))
      else if a.multiFileLimit < (k :: rest).length then
        Run.ofSt st (.raised (.valueError "Too many files matched."))
      else
        match rest with
        | [] => singlePath env a st k
        | _ => multiPath env a st (k :: rest)

/-! ## `s3_to_gs` (`transfer.py`, lines 412-495)

The per-key body is
```
try:
    local_file = s3_client.download(s3_bucket_name, s3_file)
    ...
except Exception as e:
    logs.client.logger.error(f"Failed to download {local_file} to local: {e}")
gs_file_name = (gs_file_name if gs_file_name is not None else s3_file) \
    if len(s3_files) == 1 else s3_file
try:
    gs_client.upload(local_file, gs_bucket_name, gs_file_name)
    ...
except Exception as e:
    ...
finally:
    if os.path.exists(local_file):
        os.remove(local_file)
```
`s3.Client.download(bucket, key)` is called without a `local_path`, so
it writes to `./{basename(key)}` and — having no return statement —
returns Python `None`.  Consequently `local_file` is either unbound (a
failing log line raises `NameError`) or bound to `None`, in which case
the upload raises `TypeError` (caught and logged) and the `finally`
calls `os.path.exists(None)`, which raises an uncaught `TypeError`. -/

/-- Backend oracle for `s3_to_gs`. -/
structure GsEnv where
  listing : List String
  download : String → DlRes
  gsUploadOk : String → Bool

structure S3ToGsArgs where
  s3BucketName : String
  s3ObjectName : String
  gsBucketName : String
  gsFileName : Option String

/-- State of the Python local variables across loop iterations:
`gfn` is the (re-assigned) `gs_file_name` variable and `localVar` the
`local_file` variable — `none` when still unbound, `some v` when bound
to the value `v` (`v = none` encodes Python `None`). -/
structure GsLoopState where
  st : St
  gfn : Option String
  localVar : Option (Option String)

/-- The part of the loop body after the download: `gs_file_name`
re-assignment, upload attempt, and the `finally` cleanup.  Returns
`.inl` with the updated loop state to continue, `.inr` with a finished
run to abort the whole call. -/
def gsKeyTail (env : GsEnv) (a : S3ToGsArgs) (total : Nat) (g : GsLoopState)
    (k : String) (lv : Option String) : GsLoopState ⊕ Run :=
  let gfnVal := if total = 1 then (match g.gfn with | some x => x | none => k) else k
  let g := { g with gfn := some gfnVal }
  match lv with
  | none =>
    -- upload called with `local_file = None`: `upload_from_filename(None)`
    -- raises `TypeError` before any transfer; it is caught and logged,
    -- then the `finally` evaluates `os.path.exists(None)`, raising an
    -- uncaught `TypeError` that aborts the whole call.
    let st := (g.st.emit (.gsUpload none a.gsBucketName gfnVal false)).emit
      (.logError ("Failed to upload None to " ++ a.gsBucketName ++ "/" ++ gfnVal))
    .inr (Run.ofSt st (.raised .typeError))
  | some p =>
    -- Unreachable with the current `s3.Client.download` (it never
    -- returns a path); kept so the dataflow of the source is complete.
    if env.gsUploadOk k then
      .inl { g with st := (g.st.emit (.gsUpload (some p) a.gsBucketName gfnVal true)).rmIfExists p }
    else
      let st := (g.st.emit (.gsUpload (some p) a.gsBucketName gfnVal false)).emit
        (.logError ("Failed to upload " ++ p ++ " to " ++ a.gsBucketName ++ "/" ++ gfnVal))
      .inl { g with st := st.rmIfExists p }

/-- The `for s3_file in s3_files` loop of `s3_to_gs`. -/
def s3ToGsLoop (env : GsEnv) (a : S3ToGsArgs) (total : Nat) (keys : List String)
    (g : GsLoopState) : Run :=
  match keys with
  | [] => Run.ofSt g.st .ok
  | k :: rest =>
    let dest := "./" ++ pyBasename k
    match env.download k with
    | .clientError =>
      Run.ofSt ((g.st.emit (.s3Download k dest .clientError)).emit
        (.logError "botocore ClientError")) .sysExit
    | .excOther =>
      match g.localVar with
      | none =>
        -- the `except` handler's f-string reads the unbound
        -- `local_file` variable: `NameError` aborts the call
        Run.ofSt (g.st.emit (.s3Download k dest .excOther)) (.raised .nameError)
      | some v =>
        let st := (g.st.emit (.s3Download k dest .excOther)).emit
          (.logError "Failed to download to local")
        match gsKeyTail env a total { g with st := st } k v with
        | .inl g2 => s3ToGsLoop env a total rest g2
        | .inr r => r
    | .ok =>
      let st := (g.st.emit (.s3Download k dest .ok)).addFile dest
      match gsKeyTail env a total { g with st := st, localVar := some none } k none with
      | .inl g2 => s3ToGsLoop env a total rest g2
      | .inr r => r

/-- `Client.s3_to_gs` (`transfer.py`, lines 412-495). -/
def s3_to_gs (env : GsEnv) (a : S3ToGsArgs) (disk0 : List String) : Run :=
  let keys := env.listing
  let st := (St.mk [] disk0).emit (.listKeys keys)
  s3ToGsLoop env a keys.length keys ⟨st, a.gsFileName, none⟩

/-! ## Basic lemmas about the state and set operations -/

/-- Python-set accumulation over a key list: insert `f k` for every key
satisfying `p`.  `loop1`'s `formats` set is the instance with `p` always
true, and the per-format fingerprint sets are the instances with `p`
selecting one extension. -/
def condInsertFold (p : String → Prop) [DecidablePred p] (f : String → String)
    (acc keys : List String) : List String :=
  keys.foldl (fun a k => if p k then pyInsert a (f k) else a) acc
/-- No event of the list is a load submission. -/
def noLoad (evs : List Ev) : Prop := ∀ e ∈ evs, e.isLoad = false
/-! ## Concrete scenarios refuting C1, C3 and C8 -/

/-- Environment for the C1 counterexample: one matched key, all remote
operations succeed. -/
def envC1 : S3Env :=
  { listing := ["folder/data.csv"], download := fun _ => .ok, fpOk := fun _ => true
    fingerprint := fun _ => "h", gsUploadOk := fun _ => true, loadOk := true, loadErrMsg := "" }

/-- Arguments for the C1 counterexample: a single-key `s3_to_bq` call
whose `source_format` is the invalid `"XML"`. -/
def argsC1 : S3ToBqArgs :=
  { s3Key := some "folder/data", objectName := none, bqTable := "p.d.t"
    writePreference := "truncate", partitionDate := none, partitionField := none
    sourceFormat := "XML", gsBucketName := some "stage", gsFileName := none
    multiFileLimit := 10, allowMultiFile := false }
/-- Environment for the C3 counterexample: one matched key, download and
staging upload succeed. -/
def envC3 : S3Env :=
  { listing := ["d.csv"], download := fun _ => .ok, fpOk := fun _ => true
    fingerprint := fun _ => "h", gsUploadOk := fun _ => true, loadOk := true, loadErrMsg := "" }

/-- Arguments for the C3 counterexample: `partition_field` without
`partition_date` under `truncate` (an invalid partition combination). -/
def argsC3 : S3ToBqArgs :=
  { s3Key := some "d", objectName := none, bqTable := "p.d.t"
    writePreference := "truncate", partitionDate := none, partitionField := some "f"
    sourceFormat := "CSV", gsBucketName := some "stage", gsFileName := none
    multiFileLimit := 10, allowMultiFile := false }
/-- Environment for the C8 run: two matched keys, both S3 downloads
succeed (and the GCS upload oracle is irrelevant, because the upload is
invoked with the `None` returned by `s3.Client.download`). -/
def envC8 : GsEnv :=
  { listing := ["a.csv", "b.csv"], download := fun _ => .ok, gsUploadOk := fun _ => true }

def argsC8 : S3ToGsArgs :=
  { s3BucketName := "s3b", s3ObjectName := "pre", gsBucketName := "gsb", gsFileName := none }
/-- Environment for the C1 witness: one key, everything succeeds. -/
def envC1w : S3Env :=
  { listing := ["a.csv"], download := fun _ => .ok, fpOk := fun _ => true
    fingerprint := fun _ => "h", gsUploadOk := fun _ => true, loadOk := true, loadErrMsg := "" }

def argsC1w : S3ToBqArgs :=
  { s3Key := some "a", objectName := none, bqTable := "p.d.t"
    writePreference := "truncate", partitionDate := none, partitionField := none
    sourceFormat := "CSV", gsBucketName := some "g", gsFileName := none
    multiFileLimit := 10, allowMultiFile := false }
/-- Environment for the C2 witness: two keys with different file
extensions (`.csv` vs `.json`), all downloads succeed. -/
def envC2w : S3Env :=
  { listing := ["a.csv", "b.json"], download := fun _ => .ok, fpOk := fun _ => true
    fingerprint := fun p => p, gsUploadOk := fun _ => true, loadOk := true, loadErrMsg := "" }

def argsC2w : S3ToBqArgs :=
  { s3Key := some "pre", objectName := none, bqTable := "p.d.t"
    writePreference := "truncate", partitionDate := none, partitionField := none
    sourceFormat := "CSV", gsBucketName := some "g", gsFileName := none
    multiFileLimit := 10, allowMultiFile := true }

/-! ## Lemmas and claim theorems -/

@[simp] theorem St.emit_events (s : St) (e : Ev) : (s.emit e).events = s.events ++ [e] := rfl

@[simp] theorem St.emit_disk (s : St) (e : Ev) : (s.emit e).disk = s.disk := rfl

@[simp] theorem St.addFile_events (s : St) (p : String) : (s.addFile p).events = s.events := rfl

@[simp] theorem St.addFile_disk (s : St) (p : String) : (s.addFile p).disk = pyInsert s.disk p := rfl

theorem mem_pyInsert {xs : List String} {x y : String} :
    y ∈ pyInsert xs x ↔ y ∈ xs ∨ y = x := by
  unfold pyInsert
  split
  · rename_i h
    constructor
    · exact fun hy => Or.inl hy
    · rintro (hy | rfl) <;> [exact hy; exact h]
  · simp

theorem pyInsert_nodup {xs : List String} (x : String) (h : xs.Nodup) :
    (pyInsert xs x).Nodup := by
  unfold pyInsert
  split
  · exact h
  · rename_i hx
    rw [List.nodup_append]
    exact ⟨h, List.nodup_singleton x, by
      intro y hy hy1
      rw [List.mem_singleton] at hy1
      subst hy1
      exact hx hy⟩

theorem two_le_length_of_two_mem {α : Type} [DecidableEq α] {xs : List α}
    (h : xs.Nodup) {x y : α} (hx : x ∈ xs) (hy : y ∈ xs) (hxy : x ≠ y) :
    2 ≤ xs.length := by
  calc 2 = ({x, y} : Finset α).card := (Finset.card_pair hxy).symm
    _ ≤ xs.toFinset.card := by
        refine Finset.card_le_card ?_
        intro z hz
        rw [Finset.mem_insert, Finset.mem_singleton] at hz
        rcases hz with rfl | rfl <;> simpa [List.mem_toFinset]
    _ = xs.length := List.toFinset_card_of_nodup h

@[simp] theorem condInsertFold_nil (p : String → Prop) [DecidablePred p]
    (f : String → String) (acc : List String) : condInsertFold p f acc [] = acc := rfl

@[simp] theorem condInsertFold_cons (p : String → Prop) [DecidablePred p]
    (f : String → String) (acc : List String) (k : String) (ks : List String) :
    condInsertFold p f acc (k :: ks) =
      condInsertFold p f (if p k then pyInsert acc (f k) else acc) ks := rfl

theorem mem_condInsertFold {p : String → Prop} [DecidablePred p] {f : String → String}
    {acc keys : List String} {y : String} :
    y ∈ condInsertFold p f acc keys ↔
      y ∈ acc ∨ ∃ k, k ∈ keys ∧ p k ∧ f k = y := by
  induction keys generalizing acc with
  | nil => simp
  | cons k ks ih =>
    rw [condInsertFold_cons, ih]
    by_cases hp : p k
    · simp only [hp, if_pos, mem_pyInsert]
      constructor
      · rintro ((hy | rfl) | ⟨k2, hk2, hpk2, rfl⟩)
        · exact Or.inl hy
        · exact Or.inr ⟨k, List.mem_cons_self k ks, hp, rfl⟩
        · exact Or.inr ⟨k2, List.mem_cons_of_mem k hk2, hpk2, rfl⟩
      · rintro (hy | ⟨k2, hk2, hpk2, rfl⟩)
        · exact Or.inl (Or.inl hy)
        · rcases List.mem_cons.mp hk2 with rfl | hk2
          · exact Or.inl (Or.inr rfl)
          · exact Or.inr ⟨k2, hk2, hpk2, rfl⟩
    · rw [if_neg hp]
      constructor
      · rintro (hy | ⟨k2, hk2, hpk2, rfl⟩)
        · exact Or.inl hy
        · exact Or.inr ⟨k2, List.mem_cons_of_mem k hk2, hpk2, rfl⟩
      · rintro (hy | ⟨k2, hk2, hpk2, rfl⟩)
        · exact Or.inl hy
        · rcases List.mem_cons.mp hk2 with rfl | hk2
          · exact absurd hpk2 hp
          · exact Or.inr ⟨k2, hk2, hpk2, rfl⟩

theorem condInsertFold_nodup {p : String → Prop} [DecidablePred p] {f : String → String}
    {acc : List String} (keys : List String) (h : acc.Nodup) :
    (condInsertFold p f acc keys).Nodup := by
  induction keys generalizing acc with
  | nil => simpa
  | cons k ks ih =>
    rw [condInsertFold_cons]
    by_cases hp : p k
    · rw [if_pos hp]; exact ih (pyInsert_nodup _ h)
    · rw [if_neg hp]; exact ih h

theorem condInsertFold_all_eq {g : String → String} {f : String}
    {keys : List String} (hall : ∀ k ∈ keys, g k = f) :
    condInsertFold (fun _ => True) g [f] keys = [f] := by
  induction keys with
  | nil => rfl
  | cons k ks ih =>
    rw [condInsertFold_cons, if_pos trivial]
    have hk : g k = f := hall k (List.mem_cons_self k ks)
    have : pyInsert [f] (g k) = [f] := by
      unfold pyInsert
      rw [hk, if_pos (List.mem_singleton.mpr rfl)]
    rw [this]
    exact ih (fun k2 hk2 => hall k2 (List.mem_cons_of_mem k hk2))

theorem condInsertFold_singleton_of_all_eq {g : String → String} {f : String}
    {keys : List String} (hne : keys ≠ []) (hall : ∀ k ∈ keys, g k = f) :
    condInsertFold (fun _ => True) g [] keys = [f] := by
  match keys with
  | [] => exact absurd rfl hne
  | k :: ks =>
    rw [condInsertFold_cons, if_pos trivial]
    have hk : g k = f := hall k (List.mem_cons_self k ks)
    have : pyInsert [] (g k) = [f] := by unfold pyInsert; simp [hk]
    rw [this]
    exact condInsertFold_all_eq (fun k2 hk2 => hall k2 (List.mem_cons_of_mem k hk2))

/-! ## Lemmas about local-disk cleanup -/

theorem rmIfExists_disk_subset {st : St} {p q : String}
    (h : q ∈ (st.rmIfExists p).disk) : q ∈ st.disk := by
  unfold St.rmIfExists at h
  split at h
  · exact (List.mem_filter.mp h).1
  · exact h

theorem not_mem_rmIfExists_self (st : St) (p : String) :
    p ∉ (st.rmIfExists p).disk := by
  unfold St.rmIfExists
  split
  · intro h
    have := (List.mem_filter.mp h).2
    simp at this
  · rename_i h
    exact h

@[simp] theorem cleanupAll_nil (st : St) : cleanupAll st [] = st := rfl

@[simp] theorem cleanupAll_cons (st : St) (f : String) (fs : List String) :
    cleanupAll st (f :: fs) = cleanupAll (st.rmIfExists f) fs := rfl

theorem not_mem_cleanupAll_of_not_mem {st : St} {fs : List String} {q : String}
    (h : q ∉ st.disk) : q ∉ (cleanupAll st fs).disk := by
  induction fs generalizing st with
  | nil => exact h
  | cons f fs ih =>
    rw [cleanupAll_cons]
    exact ih (fun hq => h (rmIfExists_disk_subset hq))

theorem not_mem_cleanupAll {st : St} {fs : List String} {p : String}
    (h : p ∈ fs) : p ∉ (cleanupAll st fs).disk := by
  induction fs generalizing st with
  | nil => cases h
  | cons f fs ih =>
    rw [cleanupAll_cons]
    rcases List.mem_cons.mp h with rfl | hp
    · exact not_mem_cleanupAll_of_not_mem (not_mem_rmIfExists_self st p)
    · exact ih hp

/-! ## Claim theorems for the leaf components -/

/-- Reusable core of the C4 amended statement. -/
theorem get_bq_write_disposition_unmapped {wp : String}
    (h1 : wp ≠ "empty") (h2 : wp ≠ "append") (h3 : wp ≠ "truncate") :
    get_bq_write_disposition wp = none := by
  unfold get_bq_write_disposition
  rw [if_neg h3, if_neg h2, if_neg h1]

/-- Claim C4, counterexample:  The claim says the Write-Disposition
Resolver raises `ConfigurationError` on values outside
`{empty, append, truncate}`.  The code (`_helper.py` line 33) is
`disposition.get(write_preference, None)`: on the unmapped value
`"invalid"` it returns Python `None` as a normal result — a silent
default, not an error — while mapped values get their disposition. -/
theorem C4_counterexample :
    get_bq_write_disposition "invalid" = none ∧
    get_bq_write_disposition "truncate" = some "WRITE_TRUNCATE" := by
  constructor <;> rfl

/-- Claim C4, amended:  For every write-preference outside
`{empty, append, truncate}` the resolver returns `none` (Python `None`),
a silent default rather than a raised `ConfigurationError`; for the
three mapped values it returns the corresponding backend write
disposition. -/
theorem C4_amended_resolver :
    (∀ wp : String, wp ∉ ["empty", "append", "truncate"] →
      get_bq_write_disposition wp = none) ∧
    get_bq_write_disposition "empty" = some "WRITE_EMPTY" ∧
    get_bq_write_disposition "append" = some "WRITE_APPEND" ∧
    get_bq_write_disposition "truncate" = some "WRITE_TRUNCATE" := by
  refine ⟨?_, rfl, rfl, rfl⟩
  intro wp h
  simp only [List.mem_cons, List.not_mem_nil, or_false, not_or] at h
  exact get_bq_write_disposition_unmapped h.1 h.2.1 h.2.2

/-- Witness for C4: the amended theorem applied at `"invalid"`. -/
theorem C4_witness :
    ("invalid" : String) ∉ ["empty", "append", "truncate"] ∧
    get_bq_write_disposition "invalid" = none :=
  ⟨by decide, C4_amended_resolver.1 "invalid" (by decide)⟩

/-- Claim C9, code bug:  Failing input: `files_path = ["a.csv", "b.csv"]`
with explicit `output_file_path = "out.csv"`.  `merge_files`
(`_helper.py` lines 4-13) writes the byte concatenation of the inputs to
`"out.csv"` but its `return output` statement returns the constant
`"merged.csv"`, so the returned path is not the output path and does not
name the file that was written — the claim says the returned path is the
explicit output path. -/
theorem C9_merge_files_return_bug :
    (merge_files
        (fun p => if p = "a.csv" then [1, 2] else if p = "b.csv" then [3] else [])
        ["a.csv", "b.csv"] (some "out.csv")).returned = "merged.csv" ∧
    (merge_files
        (fun p => if p = "a.csv" then [1, 2] else if p = "b.csv" then [3] else [])
        ["a.csv", "b.csv"] (some "out.csv")).writtenPath = "out.csv" ∧
    (merge_files
        (fun p => if p = "a.csv" then [1, 2] else if p = "b.csv" then [3] else [])
        ["a.csv", "b.csv"] (some "out.csv")).writtenContent = [1, 2, 3] ∧
    ("merged.csv" : String) ≠ "out.csv" := by
  refine ⟨rfl, rfl, by decide, by decide⟩

/-- Claim C10, counterexample:  A bucket that already holds the unrelated
blob `old.txt` before the extract job runs: `bq_to_gs` returns the URI
of `old.txt` alongside the extract output `t_000`, because line 75 of
`transfer.py` lists the whole bucket (`list_blobs(bucket_name)`) with no
prefix scoping.  The claim says the returned list contains exactly the
URIs produced by the extract job. -/
theorem C10_counterexample :
    bq_to_gs ⟨["old.txt"], ["t_000"], true⟩ "p.d.t" "b" =
      .ok ["gs://b/old.txt", "gs://b/t_000"] ∧
    bq_to_gs ⟨["old.txt"], ["t_000"], true⟩ "p.d.t" "b" ≠ .ok ["gs://b/t_000"] := by
  refine ⟨rfl, ?_⟩
  intro h
  rw [show bq_to_gs ⟨["old.txt"], ["t_000"], true⟩ "p.d.t" "b" =
    .ok ["gs://b/old.txt", "gs://b/t_000"] from rfl] at h
  injection h with h2
  exact absurd h2 (by decide)

/-- Claim C10, amended:  After the extract job completes, `bq_to_gs`
returns the `gs://` URIs of **all** blobs of the destination bucket —
the extract job's outputs together with every pre-existing object — not
just the files produced by the extract job. -/
theorem C10_amended_bucket_listing (env : BqToGsEnv) (table bucket p d t : String)
    (hsplit : pySplitDot table = [p, d, t]) (hok : env.extractOk = true) :
    ∃ l, bq_to_gs env table bucket = .ok l ∧
      ∀ u, u ∈ l ↔ ∃ n, n ∈ env.preBlobs ++ env.producedBlobs ∧
        u = "gs://" ++ bucket ++ "/" ++ n := by
  refine ⟨(env.preBlobs ++ env.producedBlobs).map (fun n => "gs://" ++ bucket ++ "/" ++ n), ?_, ?_⟩
  · unfold bq_to_gs
    rw [hsplit, hok]
    simp
  · intro u
    rw [List.mem_map]
    constructor
    · rintro ⟨n, hn, rfl⟩; exact ⟨n, hn, rfl⟩
    · rintro ⟨n, hn, rfl⟩; exact ⟨n, hn, rfl⟩

/-- Witness for C10: bucket with pre-existing blob `x`, extract output
`y`. -/
theorem C10_witness :
    pySplitDot "p.d.t" = ["p", "d", "t"] ∧
    (∃ l, bq_to_gs ⟨["x"], ["y"], true⟩ "p.d.t" "b" = .ok l ∧
      ∀ u, u ∈ l ↔ ∃ n, n ∈ (BqToGsEnv.mk ["x"] ["y"] true).preBlobs ++
          (BqToGsEnv.mk ["x"] ["y"] true).producedBlobs ∧
        u = "gs://" ++ "b" ++ "/" ++ n) :=
  ⟨by decide, C10_amended_bucket_listing ⟨["x"], ["y"], true⟩ "p.d.t" "b" "p" "d" "t" (by decide) rfl⟩

/-- Reusable core for C6: the error branch of the partitioning chain. -/
theorem applyPartitioning_field_no_date {tid : String} {pd pf : Option String}
    (hpf : truthy pf = true) (hpd : truthy pd = false) :
    applyPartitioning tid pd pf "truncate" = none := by
  unfold applyPartitioning
  simp [hpf, hpd]

/-- Claim C6:  With `partition_date` absent and `partition_field` present:
under `truncate` the addressing chain takes its fatal error branch
(`none`, realised as `sys.exit(1)` in `gs_to_bq`, `ValueError` in
`s3_to_bq` — the spec's `ConfigurationError`); under `append` or `empty`
it returns the unmodified table id with no time partitioning.  The third
conjunct ties the error branch to the `s3_to_bq` load stage: the stage
raises the partition `ValueError` before submitting any load. -/
theorem C6_partition_field_without_date :
    (∀ (tid : String) (pd pf : Option String),
      truthy pf = true → truthy pd = false →
      applyPartitioning tid pd pf "truncate" = none) ∧
    (∀ (tid : String) (pd pf : Option String) (wp : String),
      truthy pf = true → truthy pd = false →
      (wp = "append" ∨ wp = "empty") →
      applyPartitioning tid pd pf wp = some (tid, none)) ∧
    (∀ (env : S3Env) (a : S3ToBqArgs) (st : St) (uris cleanup : List String)
      (pr ds tid : String),
      pySplitDot a.bqTable = [pr, ds, tid] →
      truthy a.partitionField = true → truthy a.partitionDate = false →
      a.writePreference = "truncate" →
      (loadStage env a st uris cleanup).outcome =
        .raised (.valueError "partition_field supplied without partition_date")) := by
  refine ⟨?_, ?_, ?_⟩
  · intro tid pd pf hpf hpd
    exact applyPartitioning_field_no_date hpf hpd
  · intro tid pd pf wp hpf hpd hwp
    have hne : wp ≠ "truncate" := by
      rcases hwp with rfl | rfl <;> decide
    unfold applyPartitioning
    simp [hpf, hpd, hne]
  · intro env a st uris cleanup pr ds tid hsplit hpf hpd hwp
    simp only [loadStage, hsplit, hwp, applyPartitioning_field_no_date hpf hpd]
    rfl

/-- Witness for C6: all three conjuncts instantiated concretely. -/
theorem C6_witness :
    truthy (some "f") = true ∧ truthy (none : Option String) = false ∧
    applyPartitioning "t" none (some "f") "truncate" = none ∧
    applyPartitioning "t" none (some "f") "append" = some ("t", none) ∧
    (loadStage ⟨[], fun _ => .ok, fun _ => true, fun _ => "", fun _ => true, true, ""⟩
        ⟨some "k", none, "p.d.t", "truncate", none, some "f", "CSV", some "g", none, 10, false⟩
        ⟨[], []⟩ ["u"] []).outcome =
      .raised (.valueError "partition_field supplied without partition_date") :=
  ⟨rfl, rfl,
    C6_partition_field_without_date.1 "t" none (some "f") rfl rfl,
    C6_partition_field_without_date.2.1 "t" none (some "f") "append" rfl rfl (Or.inl rfl),
    C6_partition_field_without_date.2.2
      ⟨[], fun _ => .ok, fun _ => true, fun _ => "", fun _ => true, true, ""⟩
      ⟨some "k", none, "p.d.t", "truncate", none, some "f", "CSV", some "g", none, 10, false⟩
      ⟨[], []⟩ ["u"] [] "p" "d" "t" (by decide) rfl rfl rfl⟩

/-- Claim C7:  With `partition_date` present (Python-truthy), both
duplicated partitioning chains return the base table id suffixed with
`$date` and a DAY-granularity time-partitioning descriptor whose `field`
is set precisely when `partition_field` is present (Python-truthy), in
which case it equals that field. -/
theorem C7_partition_date_addressing (tid d : String) (pf : Option String)
    (wp : String) (hd : truthy (some d) = true) :
    ∃ tp : TimePartitioning,
      applyPartitioning tid (some d) pf wp = some (tid ++ "$" ++ d, some tp) ∧
      tp.granularity = "DAY" ∧
      (tp.field = none ↔ truthy pf = false) ∧
      (truthy pf = true → tp.field = pf) := by
  by_cases hpf : truthy pf = true
  · refine ⟨⟨"DAY", pf⟩, ?_, rfl, ?_, fun _ => rfl⟩
    · unfold applyPartitioning
      simp [hd, hpf]
    · constructor
      · intro h
        have h2 : pf = none := h
        rw [h2]
        rfl
      · intro h
        exact Bool.noConfusion (hpf.symm.trans h)
  · have hpf2 : truthy pf = false := by
      cases h : truthy pf
      · rfl
      · exact absurd h hpf
    refine ⟨⟨"DAY", none⟩, ?_, rfl, ?_, ?_⟩
    · unfold applyPartitioning
      simp [hd, hpf2]
    · simp [hpf2]
    · intro h
      exact Bool.noConfusion (hpf2.symm.trans h)

/-- Witness for C7: date `20240101` and field `f`. -/
theorem C7_witness :
    truthy (some "20240101") = true ∧
    ∃ tp : TimePartitioning,
      applyPartitioning "t" (some "20240101") (some "f") "append" =
        some ("t" ++ "$" ++ "20240101", some tp) ∧
      tp.granularity = "DAY" ∧
      (tp.field = none ↔ truthy (some "f") = false) ∧
      (truthy (some "f") = true → tp.field = some "f") :=
  ⟨rfl, C7_partition_date_addressing "t" "20240101" (some "f") "append" rfl⟩

/-- Claim C1, counterexample:  The single-key `s3_to_bq` call with invalid
`source_format = "XML"` stages `/tmp/folder_data.csv` (line 631), uploads
it to GCS (line 643), then raises `ValueError` at the source-format check
(line 700) — and the staged file is still on local disk when the call
returns, because the only cleanup is the `finally` around the load job
(lines 727-730), which is never reached.  The claim requires deletion on
every exit path. -/
theorem C1_counterexample :
    (s3_to_bq envC1 argsC1 []).outcome =
      .raised (.valueError ("Invalid SourceFormat entered: " ++ "XML")) ∧
    "/tmp/folder_data.csv" ∈ (s3_to_bq envC1 argsC1 []).disk := by
  constructor
  · rfl
  · decide

/-- Claim C3, counterexample:  With the invalid partition combination the
call does fail fatally, but only *after* the S3 download (line 631) and
the staging upload to GCS (line 643) have both happened: both remote
side effects appear in the trace of the failing run.  The claim says the
call fails before any download from the secondary store and before any
upload to the primary store. -/
theorem C3_counterexample :
    (s3_to_bq envC3 argsC3 []).outcome =
      .raised (.valueError "partition_field supplied without partition_date") ∧
    (∃ e ∈ (s3_to_bq envC3 argsC3 []).events, e.isDownload = true) ∧
    (∃ e ∈ (s3_to_bq envC3 argsC3 []).events, e.isUpload = true) := by
  refine ⟨rfl, ?_, ?_⟩
  · exact ⟨.s3Download "d.csv" "/tmp/d.csv" .ok, by decide, rfl⟩
  · exact ⟨.gsUpload (some "/tmp/d.csv") "stage" "d.csv" true, by decide, rfl⟩

/-- Claim C8, code bug:  Failing input: an `s3_to_gs` call matching the
two keys `a.csv`, `b.csv`.  `s3.Client.download` (`s3.py` lines 27-56)
returns `None`, so `local_file` is `None`: the upload of the first key
fails (`upload_from_filename(None)` raises `TypeError`) and **is
logged**, but the `finally` block then evaluates `os.path.exists(None)`,
whose `TypeError` is not caught — the call aborts and the second key is
never attempted, contradicting the claimed per-key fault isolation.
(The run also shows the actually-staged file `./a.csv` is never
removed.)  A `ClientError` download failure likewise aborts everything
via `sys.exit(1)` in `s3.Client.download`, which `except Exception`
cannot catch. -/
theorem C8_per_key_isolation_bug :
    (s3_to_gs envC8 argsC8 []).outcome = .raised .typeError ∧
    Ev.gsUpload none "gsb" "a.csv" false ∈ (s3_to_gs envC8 argsC8 []).events ∧
    Ev.logError ("Failed to upload None to " ++ "gsb" ++ "/" ++ "a.csv") ∈
      (s3_to_gs envC8 argsC8 []).events ∧
    (∀ e ∈ (s3_to_gs envC8 argsC8 []).events,
      e.isDownload = true → e = Ev.s3Download "a.csv" "./a.csv" .ok) ∧
    "./a.csv" ∈ (s3_to_gs envC8 argsC8 []).disk := by
  refine ⟨rfl, by decide, by decide, ?_, by decide⟩
  decide

/-- Claim C5:  Whenever the key listing matches at least two keys and
`allow_multi_file` is `False`, `s3_to_bq` raises (at one of the
pre-flight guards, `transfer.py` lines 610-621) and its trace contains
no download event: the raise happens before any download of a matched
key. -/
theorem C5_no_download_before_raise (env : S3Env) (a : S3ToBqArgs) (disk0 : List String)
    (hlen : 2 ≤ env.listing.length) (hallow : a.allowMultiFile = false) :
    (∃ e, (s3_to_bq env a disk0).outcome = .raised e) ∧
    ∀ ev ∈ (s3_to_bq env a disk0).events, ev.isDownload = false := by
  simp only [s3_to_bq]
  split
  · refine ⟨⟨_, rfl⟩, ?_⟩
    intro ev hev
    simp [Run.ofSt] at hev
  · rename_i sk hsk
    split
    · rename_i hnil
      refine ⟨⟨_, rfl⟩, ?_⟩
      intro ev hev
      simp [Run.ofSt, St.emit] at hev
      subst hev
      rfl
    · rename_i k rest hcons
      have hlen2 : 1 < (k :: rest).length := by
        rw [← hcons]
        omega
      by_cases hobj : a.objectName.isSome ∧ 1 < (k :: rest).length
      · rw [if_pos hobj]
        refine ⟨⟨_, rfl⟩, ?_⟩
        intro ev hev
        simp [Run.ofSt, St.emit] at hev
        subst hev
        rfl
      · rw [if_neg hobj, if_pos (by exact ⟨hlen2, by rw [hallow]; rfl⟩)]
        refine ⟨⟨_, rfl⟩, ?_⟩
        intro ev hev
        simp [Run.ofSt, St.emit] at hev
        subst hev
        rfl

/-- Witness for C5: two matched keys with `allow_multi_file = False`. -/
theorem C5_witness :
    2 ≤ (S3Env.mk ["a", "b"] (fun _ => DlRes.ok) (fun _ => true) (fun _ => "")
          (fun _ => true) true "").listing.length ∧
    ((∃ e, (s3_to_bq
        ⟨["a", "b"], fun _ => .ok, fun _ => true, fun _ => "", fun _ => true, true, ""⟩
        ⟨some "pre", none, "p.d.t", "truncate", none, none, "CSV", some "g", none, 10, false⟩
        []).outcome = .raised e) ∧
      ∀ ev ∈ (s3_to_bq
        ⟨["a", "b"], fun _ => .ok, fun _ => true, fun _ => "", fun _ => true, true, ""⟩
        ⟨some "pre", none, "p.d.t", "truncate", none, none, "CSV", some "g", none, 10, false⟩
        []).events, ev.isDownload = false) :=
  ⟨by decide, C5_no_download_before_raise
    ⟨["a", "b"], fun _ => .ok, fun _ => true, fun _ => "", fun _ => true, true, ""⟩
    ⟨some "pre", none, "p.d.t", "truncate", none, none, "CSV", some "g", none, 10, false⟩
    [] (by decide) rfl⟩

/-! ## Characterization of the fingerprint loop -/

theorem step1_temps (env : S3Env) (b : Batch) (k : String) :
    (step1 env b k).temps = b.temps ++ [tmpPath k] := by
  simp only [step1]
  split_ifs <;> rfl

theorem step1_fmts (env : S3Env) (b : Batch) (k : String) :
    (step1 env b k).fmts = pyInsert b.fmts (getFileFormat k) := by
  simp only [step1]
  split_ifs <;> rfl

theorem step1_csvH {env : S3Env} (b : Batch) {k : String}
    (hfp : env.fpOk (tmpPath k) = true) :
    (step1 env b k).csvH =
      if getFileFormat k = ".csv" then pyInsert b.csvH (env.fingerprint (tmpPath k))
      else b.csvH := by
  simp only [step1]
  by_cases h1 : getFileFormat k = ".csv"
  · simp [h1, hfp]
  · rw [if_neg h1, if_neg h1]
    split_ifs <;> rfl

theorem step1_jsonK {env : S3Env} (b : Batch) {k : String}
    (hfp : env.fpOk (tmpPath k) = true) :
    (step1 env b k).jsonK =
      if getFileFormat k = ".json" then pyInsert b.jsonK (env.fingerprint (tmpPath k))
      else b.jsonK := by
  simp only [step1]
  by_cases h1 : getFileFormat k = ".json"
  · rw [if_neg (by rw [h1]; decide), if_pos h1, if_pos hfp, if_pos h1]
  · rw [if_neg h1]
    split_ifs <;> rfl

theorem step1_parqS {env : S3Env} (b : Batch) {k : String}
    (hfp : env.fpOk (tmpPath k) = true) :
    (step1 env b k).parqS =
      if getFileFormat k = ".parquet" then pyInsert b.parqS (env.fingerprint (tmpPath k))
      else b.parqS := by
  simp only [step1]
  by_cases h1 : getFileFormat k = ".parquet"
  · rw [if_neg (by rw [h1]; decide), if_neg (by rw [h1]; decide), if_pos h1, if_pos hfp,
      if_pos h1]
  · rw [if_neg h1]
    split_ifs <;> rfl

theorem step1_avroS {env : S3Env} (b : Batch) {k : String}
    (hfp : env.fpOk (tmpPath k) = true) :
    (step1 env b k).avroS =
      if getFileFormat k = ".avro" then pyInsert b.avroS (env.fingerprint (tmpPath k))
      else b.avroS := by
  simp only [step1]
  by_cases h1 : getFileFormat k = ".avro"
  · rw [if_neg (by rw [h1]; decide), if_neg (by rw [h1]; decide),
      if_neg (by rw [h1]; decide), if_pos h1, if_pos hfp, if_pos h1]
  · rw [if_neg h1]
    split_ifs <;> rfl

/-- When every key of the batch downloads successfully and every staged
file's fingerprint is readable, the fingerprint loop terminates normally
and its accumulators are the corresponding set-folds over the key list. -/
theorem loop1_all_ok (env : S3Env) (keys : List String)
    (hdl : ∀ k ∈ keys, env.download k = .ok)
    (hfp : ∀ k ∈ keys, env.fpOk (tmpPath k) = true) (b : Batch) :
    ∃ st1, loop1 env keys b = .inl
      { st := st1
        temps := b.temps ++ keys.map tmpPath
        fmts := condInsertFold (fun _ => True) getFileFormat b.fmts keys
        csvH := condInsertFold (fun k2 => getFileFormat k2 = ".csv")
          (fun k2 => env.fingerprint (tmpPath k2)) b.csvH keys
        jsonK := condInsertFold (fun k2 => getFileFormat k2 = ".json")
          (fun k2 => env.fingerprint (tmpPath k2)) b.jsonK keys
        parqS := condInsertFold (fun k2 => getFileFormat k2 = ".parquet")
          (fun k2 => env.fingerprint (tmpPath k2)) b.parqS keys
        avroS := condInsertFold (fun k2 => getFileFormat k2 = ".avro")
          (fun k2 => env.fingerprint (tmpPath k2)) b.avroS keys } := by
  induction keys generalizing b with
  | nil => exact ⟨b.st, by simp [loop1]⟩
  | cons k rest ih =>
    have hdlk : env.download k = .ok := hdl k (List.mem_cons_self k rest)
    have hfpk : env.fpOk (tmpPath k) = true := hfp k (List.mem_cons_self k rest)
    obtain ⟨st1, hrec⟩ := ih
      (fun k2 h => hdl k2 (List.mem_cons_of_mem k h))
      (fun k2 h => hfp k2 (List.mem_cons_of_mem k h)) (step1 env b k)
    refine ⟨st1, ?_⟩
    have hstep : loop1 env (k :: rest) b = loop1 env rest (step1 env b k) := by
      simp only [loop1, hdlk]
    rw [hstep, hrec]
    simp only [Sum.inl.injEq]
    have h1 := step1_temps env b k
    have h2 := step1_fmts env b k
    have h3 := step1_csvH b hfpk
    have h4 := step1_jsonK b hfpk
    have h5 := step1_parqS b hfpk
    have h6 := step1_avroS b hfpk
    rw [Batch.mk.injEq]
    refine ⟨rfl, ?_, ?_, ?_, ?_, ?_, ?_⟩
    · rw [h1, List.map_cons, List.append_assoc, List.singleton_append]
    · rw [h2, condInsertFold_cons, if_pos trivial]
    · rw [h3, condInsertFold_cons]
    · rw [h4, condInsertFold_cons]
    · rw [h5, condInsertFold_cons]
    · rw [h6, condInsertFold_cons]

@[simp] theorem Run.ofSt_events (s : St) (o : Outcome) : (Run.ofSt s o).events = s.events := rfl

@[simp] theorem Run.ofSt_disk (s : St) (o : Outcome) : (Run.ofSt s o).disk = s.disk := rfl

@[simp] theorem Run.ofSt_outcome (s : St) (o : Outcome) : (Run.ofSt s o).outcome = o := rfl

/-- Claim C2:  In a multi-key `s3_to_bq` batch in which every key
downloads and fingerprints successfully, if two staged files have
different formats, or all share one of the four fingerprinted formats
but two structural fingerprints differ, then the call raises one of the
schema-mismatch `RuntimeError`s (the spec's `SchemaMismatchError`) and
every staged local file of the batch is removed from local disk before
the call ends. -/
theorem C2_schema_mismatch_cleanup (env : S3Env) (a : S3ToBqArgs) (disk0 : List String)
    (sk : String)
    (hs3 : a.s3Key = some sk) (hobj : a.objectName = none)
    (hlen : 2 ≤ env.listing.length) (hlim : env.listing.length ≤ a.multiFileLimit)
    (hallow : a.allowMultiFile = true) (hgsb : truthy a.gsBucketName = true)
    (hdl : ∀ k ∈ env.listing, env.download k = .ok)
    (hfp : ∀ k ∈ env.listing, env.fpOk (tmpPath k) = true)
    (H : (∃ k1 ∈ env.listing, ∃ k2 ∈ env.listing, getFileFormat k1 ≠ getFileFormat k2) ∨
      (∃ f ∈ ([".csv", ".json", ".parquet", ".avro"] : List String),
        (∀ k ∈ env.listing, getFileFormat k = f) ∧
        ∃ k1 ∈ env.listing, ∃ k2 ∈ env.listing,
          env.fingerprint (tmpPath k1) ≠ env.fingerprint (tmpPath k2))) :
    (∃ m, (s3_to_bq env a disk0).outcome = .raised (.runtimeError m)) ∧
    ∀ k ∈ env.listing, tmpPath k ∉ (s3_to_bq env a disk0).disk := by
  -- the listing has at least two keys
  obtain ⟨k0, rest0, hc⟩ : ∃ k0 r0, env.listing = k0 :: r0 := by
    cases h : env.listing with
    | nil => rw [h] at hlen; simp at hlen
    | cons x xs => exact ⟨x, xs, rfl⟩
  obtain ⟨k1, rest1, hc1⟩ : ∃ k1 r1, rest0 = k1 :: r1 := by
    cases h : rest0 with
    | nil => rw [h] at hc; rw [hc] at hlen; simp at hlen
    | cons x xs => exact ⟨x, xs, rfl⟩
  rw [hc1] at hc
  -- the call reaches the multi-key branch
  have hlim2 : ¬ a.multiFileLimit < (k0 :: k1 :: rest1).length := by
    rw [hc] at hlim
    omega
  have hred : s3_to_bq env a disk0 =
      multiPath env a ((St.mk [] disk0).emit (.listKeys env.listing)) (k0 :: k1 :: rest1) := by
    simp only [s3_to_bq, hs3, hobj, Option.isNone_some, Option.isSome_none,
      Bool.false_and, Bool.and_false, if_neg]
    rw [hc]
    have hlim3 : ¬ a.multiFileLimit < rest1.length + 1 + 1 := by simpa using hlim2
    simp [hallow, hlim3]
  rw [hred]
  -- the fingerprint loop succeeds and its accumulators are the folds
  obtain ⟨st1, hl1⟩ := loop1_all_ok env (k0 :: k1 :: rest1)
    (by rw [← hc]; exact hdl) (by rw [← hc]; exact hfp)
    ⟨(St.mk [] disk0).emit (.listKeys env.listing), [], [], [], [], [], []⟩
  have hgsb2 : ¬ (!truthy a.gsBucketName) = true := by
    rw [hgsb]
    decide
  simp only [multiPath, hgsb2, if_neg, if_false, Bool.false_eq_true, hl1]
  -- shared conclusion: a mismatch raise after deleting all of `temp_files`
  have hfin : ∀ (s : St) (m : String),
      (∃ m2, (Run.ofSt (cleanupAll s ([] ++ List.map tmpPath (k0 :: k1 :: rest1)))
        (.raised (.runtimeError m))).outcome = .raised (.runtimeError m2)) ∧
      ∀ k ∈ env.listing, tmpPath k ∉
        (Run.ofSt (cleanupAll s ([] ++ List.map tmpPath (k0 :: k1 :: rest1)))
          (.raised (.runtimeError m))).disk := by
    intro s m
    refine ⟨⟨m, rfl⟩, ?_⟩
    intro k hk
    rw [Run.ofSt_disk]
    apply not_mem_cleanupAll
    rw [← hc]
    simpa using List.mem_map_of_mem tmpPath hk
  rcases H with ⟨kA, hkA, kB, hkB, hne⟩ | ⟨f, hf4, hall, kA, hkA, kB, hkB, hne⟩
  · -- two different formats: the `formats` set has at least two elements
    have h2 : 1 < (condInsertFold (fun _ => True) getFileFormat [] (k0 :: k1 :: rest1)).length := by
      have nodup : (condInsertFold (fun _ => True) getFileFormat [] (k0 :: k1 :: rest1)).Nodup :=
        condInsertFold_nodup _ List.nodup_nil
      have mA : getFileFormat kA ∈ condInsertFold (fun _ => True) getFileFormat [] (k0 :: k1 :: rest1) :=
        mem_condInsertFold.mpr (Or.inr ⟨kA, by rw [← hc]; exact hkA, trivial, rfl⟩)
      have mB : getFileFormat kB ∈ condInsertFold (fun _ => True) getFileFormat [] (k0 :: k1 :: rest1) :=
        mem_condInsertFold.mpr (Or.inr ⟨kB, by rw [← hc]; exact hkB, trivial, rfl⟩)
      have := two_le_length_of_two_mem nodup mA mB hne
      omega
    rw [if_pos h2]
    exact hfin _ _
  · -- one format, two different fingerprints for it
    have hlist_ne : (k0 :: k1 :: rest1) ≠ [] := by simp
    have hall2 : ∀ k ∈ (k0 :: k1 :: rest1), getFileFormat k = f := by
      rw [← hc]; exact hall
    have hfmts : condInsertFold (fun _ => True) getFileFormat [] (k0 :: k1 :: rest1) = [f] :=
      condInsertFold_singleton_of_all_eq hlist_ne hall2
    rw [hfmts, if_neg (by simp)]
    have hset : 1 < (condInsertFold (fun k2 => getFileFormat k2 = f)
        (fun k2 => env.fingerprint (tmpPath k2)) [] (k0 :: k1 :: rest1)).length := by
      have nodup : (condInsertFold (fun k2 => getFileFormat k2 = f)
          (fun k2 => env.fingerprint (tmpPath k2)) [] (k0 :: k1 :: rest1)).Nodup :=
        condInsertFold_nodup _ List.nodup_nil
      have mA : env.fingerprint (tmpPath kA) ∈ condInsertFold (fun k2 => getFileFormat k2 = f)
          (fun k2 => env.fingerprint (tmpPath k2)) [] (k0 :: k1 :: rest1) :=
        mem_condInsertFold.mpr (Or.inr ⟨kA, by rw [← hc]; exact hkA, hall kA hkA, rfl⟩)
      have mB : env.fingerprint (tmpPath kB) ∈ condInsertFold (fun k2 => getFileFormat k2 = f)
          (fun k2 => env.fingerprint (tmpPath k2)) [] (k0 :: k1 :: rest1) :=
        mem_condInsertFold.mpr (Or.inr ⟨kB, by rw [← hc]; exact hkB, hall kB hkB, rfl⟩)
      have := two_le_length_of_two_mem nodup mA mB hne
      omega
    simp only [List.mem_cons, List.not_mem_nil, or_false] at hf4
    rcases hf4 with rfl | rfl | rfl | rfl
    · rw [if_pos ⟨List.mem_singleton.mpr rfl, hset⟩]
      exact hfin _ _
    · rw [if_neg (by simp), if_pos ⟨List.mem_singleton.mpr rfl, hset⟩]
      exact hfin _ _
    · rw [if_neg (by simp), if_neg (by simp), if_pos ⟨List.mem_singleton.mpr rfl, hset⟩]
      exact hfin _ _
    · rw [if_neg (by simp), if_neg (by simp), if_neg (by simp),
        if_pos ⟨List.mem_singleton.mpr rfl, hset⟩]
      exact hfin _ _

/-! ## Outcome and trace lemmas for the loops -/

theorem noLoad_nil : noLoad [] := by
  intro e he
  cases he

theorem noLoad_emit {st : St} {e : Ev} (h : noLoad st.events) (he : e.isLoad = false) :
    noLoad (st.emit e).events := by
  intro x hx
  rw [St.emit_events, List.mem_append] at hx
  rcases hx with hx | hx
  · exact h x hx
  · rw [List.mem_singleton] at hx
    subst hx
    exact he

theorem noLoad_addFile {st : St} {p : String} (h : noLoad st.events) :
    noLoad (st.addFile p).events := h

theorem noLoad_rmIfExists {st : St} {p : String} (h : noLoad st.events) :
    noLoad (st.rmIfExists p).events := by
  unfold St.rmIfExists
  split
  · intro x hx
    rw [List.mem_append] at hx
    rcases hx with hx | hx
    · exact h x hx
    · rw [List.mem_singleton] at hx
      subst hx
      rfl
  · exact h

theorem noLoad_cleanupAll {st : St} {fs : List String} (h : noLoad st.events) :
    noLoad (cleanupAll st fs).events := by
  induction fs generalizing st with
  | nil => exact h
  | cons f fs ih =>
    rw [cleanupAll_cons]
    exact ih (noLoad_rmIfExists h)

theorem noLoad_step1 {env : S3Env} {b : Batch} {k : String} (h : noLoad b.st.events) :
    noLoad (step1 env b k).st.events := by
  simp only [step1]
  split_ifs <;>
    first
      | exact noLoad_emit (noLoad_addFile (noLoad_emit h rfl)) rfl
      | exact noLoad_addFile (noLoad_emit h rfl)

theorem loop1_inr_outcome {env : S3Env} {keys : List String} {b : Batch} {r : Run}
    (h : loop1 env keys b = .inr r) : r.outcome = .sysExit := by
  induction keys generalizing b with
  | nil => cases h
  | cons k rest ih =>
    cases hdk : env.download k <;> simp only [loop1, hdk] at h
    · exact ih h
    · injection h with h2
      rw [← h2]
      rfl
    · exact ih h

theorem loop1_noLoad_inl {env : S3Env} {keys : List String} {b b2 : Batch}
    (h : loop1 env keys b = .inl b2) (hn : noLoad b.st.events) : noLoad b2.st.events := by
  induction keys generalizing b with
  | nil =>
    injection h with h2
    rw [← h2]
    exact hn
  | cons k rest ih =>
    cases hdk : env.download k <;> simp only [loop1, hdk] at h
    · exact ih h (noLoad_step1 hn)
    · cases h
    · exact ih h (noLoad_emit (noLoad_emit hn rfl) rfl)

theorem loop1_noLoad_inr {env : S3Env} {keys : List String} {b : Batch} {r : Run}
    (h : loop1 env keys b = .inr r) (hn : noLoad b.st.events) : noLoad r.events := by
  induction keys generalizing b with
  | nil => cases h
  | cons k rest ih =>
    cases hdk : env.download k <;> simp only [loop1, hdk] at h
    · exact ih h (noLoad_step1 hn)
    · injection h with h2
      rw [← h2]
      exact noLoad_emit (noLoad_emit hn rfl) rfl
    · exact ih h (noLoad_emit (noLoad_emit hn rfl) rfl)

theorem loop2_inr_outcome {env : S3Env} {gsB : String} {gfn : Option String}
    {keys : List String} {u : Up} {r : Run}
    (h : loop2 env gsB gfn keys u = .inr r) : r.outcome = .sysExit := by
  induction keys generalizing u with
  | nil => cases h
  | cons k rest ih =>
    cases hdk : env.download k <;> simp only [loop2, hdk] at h
    · split at h
      · exact ih h
      · exact ih h
    · injection h with h2
      rw [← h2]
      rfl
    · exact ih h

theorem loop2_noLoad_inl {env : S3Env} {gsB : String} {gfn : Option String}
    {keys : List String} {u u2 : Up}
    (h : loop2 env gsB gfn keys u = .inl u2) (hn : noLoad u.st.events) :
    noLoad u2.st.events := by
  induction keys generalizing u with
  | nil =>
    injection h with h2
    rw [← h2]
    exact hn
  | cons k rest ih =>
    cases hdk : env.download k <;> simp only [loop2, hdk] at h
    · split at h
      · exact ih h (noLoad_emit (noLoad_addFile (noLoad_emit hn rfl)) rfl)
      · exact ih h (noLoad_emit (noLoad_emit (noLoad_addFile (noLoad_emit hn rfl)) rfl) rfl)
    · cases h
    · exact ih h (noLoad_emit (noLoad_emit hn rfl) rfl)

theorem loop2_noLoad_inr {env : S3Env} {gsB : String} {gfn : Option String}
    {keys : List String} {u : Up} {r : Run}
    (h : loop2 env gsB gfn keys u = .inr r) (hn : noLoad u.st.events) :
    noLoad r.events := by
  induction keys generalizing u with
  | nil => cases h
  | cons k rest ih =>
    cases hdk : env.download k <;> simp only [loop2, hdk] at h
    · split at h
      · exact ih h (noLoad_emit (noLoad_addFile (noLoad_emit hn rfl)) rfl)
      · exact ih h (noLoad_emit (noLoad_emit (noLoad_addFile (noLoad_emit hn rfl)) rfl) rfl)
    · injection h with h2
      rw [← h2]
      exact noLoad_emit (noLoad_emit hn rfl) rfl
    · exact ih h (noLoad_emit (noLoad_emit hn rfl) rfl)

theorem loop2_localFiles_mono {env : S3Env} {gsB : String} {gfn : Option String}
    {keys : List String} {u u2 : Up}
    (h : loop2 env gsB gfn keys u = .inl u2) :
    ∀ x ∈ u.localFiles, x ∈ u2.localFiles := by
  induction keys generalizing u with
  | nil =>
    injection h with h2
    rw [← h2]
    exact fun x hx => hx
  | cons k rest ih =>
    cases hdk : env.download k <;> simp only [loop2, hdk] at h
    · split at h
      · intro x hx
        have h3 := ih h
        exact h3 x (by rw [List.mem_append]; exact Or.inl hx)
      · have h3 := ih h
        exact h3
    · cases h
    · have h3 := ih h
      exact h3

theorem loop2_mem_localFiles {env : S3Env} {gsB : String} {gfn : Option String}
    {keys : List String} {u u2 : Up}
    (h : loop2 env gsB gfn keys u = .inl u2) :
    ∀ k ∈ keys, env.download k = .ok → env.gsUploadOk k = true →
      tmpPath k ∈ u2.localFiles := by
  induction keys generalizing u with
  | nil =>
    intro k hk
    cases hk
  | cons k rest ih =>
    intro k2 hk2 hdl2 hup2
    cases hdk : env.download k <;> simp only [loop2, hdk] at h
    · rcases List.mem_cons.mp hk2 with rfl | hk2
      · split at h
        · exact loop2_localFiles_mono h (tmpPath k2)
            (by rw [List.mem_append]; exact Or.inr (List.mem_singleton.mpr rfl))
        · rename_i hup
          rw [hup2] at hup
          exact absurd rfl hup
      · split at h
        · exact ih h k2 hk2 hdl2 hup2
        · exact ih h k2 hk2 hdl2 hup2
    · cases h
    · rcases List.mem_cons.mp hk2 with rfl | hk2
      · rw [hdl2] at hdk
        cases hdk
      · exact ih h k2 hk2 hdl2 hup2

/-! ## Lemmas about the shared load stage -/

theorem sourceFormatOf_eq_none {s : String}
    (h : s ∉ (["CSV", "JSON", "AVRO", "PARQUET"] : List String)) :
    sourceFormatOf s = none := by
  simp only [List.mem_cons, List.not_mem_nil, or_false, not_or] at h
  unfold sourceFormatOf
  rw [if_neg h.1, if_neg h.2.1, if_neg h.2.2.2, if_neg h.2.2.1]

/-- Under an invalid source format or the invalid partition combination,
the load stage ends in a raise and never emits a load event. -/
theorem loadStage_bad {env : S3Env} {a : S3ToBqArgs} {st : St}
    {uris cleanup : List String}
    (hn : noLoad st.events)
    (h : a.sourceFormat ∉ (["CSV", "JSON", "AVRO", "PARQUET"] : List String) ∨
      (truthy a.partitionField = true ∧ truthy a.partitionDate = false ∧
        a.writePreference = "truncate")) :
    (∃ e, (loadStage env a st uris cleanup).outcome = .raised e) ∧
    noLoad (loadStage env a st uris cleanup).events := by
  unfold loadStage
  split
  · split
    · exact ⟨⟨_, rfl⟩, noLoad_emit hn rfl⟩
    · rename_i heq
      match sf : sourceFormatOf a.sourceFormat with
      | none => exact ⟨⟨_, rfl⟩, noLoad_emit hn rfl⟩
      | some v =>
        exfalso
        rcases h with h | ⟨h1, h2, h3⟩
        · rw [sourceFormatOf_eq_none h] at sf
          cases sf
        · rw [h3, applyPartitioning_field_no_date h1 h2] at heq
          cases heq
  · exact ⟨⟨_, rfl⟩, hn⟩

/-- When the load stage ends in the normal or the caught-failure
outcome, every file of its cleanup list is off the local disk. -/
theorem loadStage_cleanup {env : S3Env} {a : S3ToBqArgs} {st : St}
    {uris cleanup : List String}
    (hout : (loadStage env a st uris cleanup).outcome = .ok ∨
      ∃ m, (loadStage env a st uris cleanup).outcome = .retFailure m) :
    ∀ p ∈ cleanup, p ∉ (loadStage env a st uris cleanup).disk := by
  rcases hl : pySplitDot a.bqTable with _ | ⟨x1, _ | ⟨x2, _ | ⟨x3, _ | ⟨x4, tl⟩⟩⟩⟩ <;>
    simp only [loadStage, hl] at hout ⊢
  case cons.cons.cons.nil =>
    rcases hap : applyPartitioning x3 a.partitionDate a.partitionField a.writePreference with
      _ | ⟨tid2, tp⟩ <;> simp only [hap] at hout ⊢
    · rcases hout with hout | ⟨m, hout⟩ <;> cases hout
    · rcases hsf : sourceFormatOf a.sourceFormat with _ | v <;>
        simp only [hsf] at hout ⊢
      · rcases hout with hout | ⟨m, hout⟩ <;> cases hout
      · cases hld : env.loadOk <;> simp only [hld] at hout ⊢
        · intro p hp
          rw [if_neg (by simp)]
          exact not_mem_cleanupAll hp
        · intro p hp
          rw [if_pos trivial]
          exact not_mem_cleanupAll hp
  all_goals rcases hout with hout | ⟨m, hout⟩ <;> cases hout

/-- Claim C3, amended:  For every `s3_to_bq` call with an invalid
`source_format` (outside CSV/JSON/AVRO/PARQUET) or the invalid partition
combination (`partition_field` without `partition_date` under
`truncate`), the call fails fatally — a raise, or process exit when a
download hits a `ClientError` — and no load is ever submitted to the
warehouse; however (see the counterexample) the download from the
secondary store and the staging upload to the primary store may happen
before the failure. -/
theorem C3_amended_no_load (env : S3Env) (a : S3ToBqArgs) (disk0 : List String)
    (h : a.sourceFormat ∉ (["CSV", "JSON", "AVRO", "PARQUET"] : List String) ∨
      (truthy a.partitionField = true ∧ truthy a.partitionDate = false ∧
        a.writePreference = "truncate")) :
    ((s3_to_bq env a disk0).outcome = .sysExit ∨
      ∃ e, (s3_to_bq env a disk0).outcome = .raised e) ∧
    ∀ ev ∈ (s3_to_bq env a disk0).events, ev.isLoad = false := by
  have h0 : noLoad (St.mk ([] : List Ev) disk0).events := noLoad_nil
  rcases hke : (if a.s3Key.isNone && a.objectName.isSome then a.objectName else a.s3Key)
    with _ | sk <;> simp only [s3_to_bq, hke]
  · exact ⟨Or.inr ⟨_, rfl⟩, noLoad_nil⟩
  · rcases hls : env.listing with _ | ⟨k1, _ | ⟨k2, rest⟩⟩ <;> simp only []
    · exact ⟨Or.inr ⟨_, rfl⟩, by exact noLoad_emit h0 rfl⟩
    · -- single matched key
      have h1 : noLoad ((((St.mk ([] : List Ev) disk0).emit
          (.listKeys [k1])).emit (.s3Download k1 (tmpPath k1) .ok)).addFile
            (tmpPath k1)).events :=
        noLoad_addFile (noLoad_emit (noLoad_emit h0 rfl) rfl)
      split_ifs with g1 g2 g3
      · exact ⟨Or.inr ⟨_, rfl⟩, by exact noLoad_emit h0 rfl⟩
      · exact ⟨Or.inr ⟨_, rfl⟩, by exact noLoad_emit h0 rfl⟩
      · exact ⟨Or.inr ⟨_, rfl⟩, by exact noLoad_emit h0 rfl⟩
      · cases hdk : env.download k1 <;> simp only [singlePath, hdk]
        · split_ifs with hgs hfn hup <;>
            first
              | exact ⟨Or.inr ⟨_, rfl⟩, by exact noLoad_emit h1 rfl⟩
              | exact ⟨Or.inr (loadStage_bad (by exact noLoad_emit h1 rfl) h).1,
                  (loadStage_bad (by exact noLoad_emit h1 rfl) h).2⟩
        · exact ⟨Or.inl rfl, by exact noLoad_emit (noLoad_emit (noLoad_emit h0 rfl) rfl) rfl⟩
        · exact ⟨Or.inr ⟨_, rfl⟩, by exact noLoad_emit (noLoad_emit h0 rfl) rfl⟩
    · -- multiple matched keys
      split_ifs with g1 g2 g3
      · exact ⟨Or.inr ⟨_, rfl⟩, by exact noLoad_emit h0 rfl⟩
      · exact ⟨Or.inr ⟨_, rfl⟩, by exact noLoad_emit h0 rfl⟩
      · exact ⟨Or.inr ⟨_, rfl⟩, by exact noLoad_emit h0 rfl⟩
      · simp only [multiPath]
        split_ifs with hgs
        · exact ⟨Or.inr ⟨_, rfl⟩, by exact noLoad_emit (noLoad_emit h0 rfl) rfl⟩
        · have hb0 : noLoad ((St.mk ([] : List Ev) disk0).emit
              (.listKeys (k1 :: k2 :: rest))).events := noLoad_emit h0 rfl
          cases hl1 : loop1 env (k1 :: k2 :: rest)
              ⟨(St.mk [] disk0).emit (.listKeys (k1 :: k2 :: rest)), [], [], [], [], [], []⟩ <;>
            simp only [hl1]
          · rename_i b2
            have hb2 : noLoad b2.st.events := loop1_noLoad_inl hl1 hb0
            split_ifs with m1 m2 m3 m4 m5
            · exact ⟨Or.inr ⟨_, rfl⟩, by exact noLoad_cleanupAll hb2⟩
            · exact ⟨Or.inr ⟨_, rfl⟩, by exact noLoad_cleanupAll hb2⟩
            · exact ⟨Or.inr ⟨_, rfl⟩, by exact noLoad_cleanupAll hb2⟩
            · exact ⟨Or.inr ⟨_, rfl⟩, by exact noLoad_cleanupAll hb2⟩
            · exact ⟨Or.inr ⟨_, rfl⟩, by exact noLoad_cleanupAll hb2⟩
            · cases hl2 : loop2 env (a.gsBucketName.getD "") a.gsFileName (k1 :: k2 :: rest)
                  ⟨b2.st, [], []⟩ <;> simp only [hl2]
              · rename_i u
                have hu : noLoad u.st.events := loop2_noLoad_inl hl2 hb2
                split_ifs with hemp
                · exact ⟨Or.inr ⟨_, rfl⟩, by exact hu⟩
                · exact ⟨Or.inr (loadStage_bad hu h).1, (loadStage_bad hu h).2⟩
              · rename_i r
                exact ⟨Or.inl (loop2_inr_outcome hl2), by exact loop2_noLoad_inr hl2 hb2⟩
          · rename_i r
            exact ⟨Or.inl (loop1_inr_outcome hl1), by exact loop1_noLoad_inr hl1 hb0⟩

/-- Witness for C3 amended: the single-key run with `partition_field`
and no `partition_date` under `truncate`. -/
theorem C3_witness :
    (truthy argsC3.partitionField = true ∧ truthy argsC3.partitionDate = false ∧
      argsC3.writePreference = "truncate") ∧
    (((s3_to_bq envC3 argsC3 []).outcome = .sysExit ∨
        ∃ e, (s3_to_bq envC3 argsC3 []).outcome = .raised e) ∧
      ∀ ev ∈ (s3_to_bq envC3 argsC3 []).events, ev.isLoad = false) :=
  ⟨⟨rfl, rfl, rfl⟩, C3_amended_no_load envC3 argsC3 [] (Or.inr ⟨rfl, rfl, rfl⟩)⟩

/-- Claim C1, amended:  In `s3_to_bq` (single-key and multi-key), whenever
the call completes the load stage — returning normally or returning the
caught load-failure tuple — every matched key that was downloaded and
staged successfully has its local staging file deleted before the call
returns.  (Per the counterexample, fatal raises *between* staging and
the load stage leave staged files on disk, and in `s3_to_gs` the cleanup
step never removes the actually-staged file, because the code's staging
path variable holds `None`; the deletion guarantee holds only around the
load step.) -/
theorem C1_amended_cleanup (env : S3Env) (a : S3ToBqArgs) (disk0 : List String)
    (hout : (s3_to_bq env a disk0).outcome = .ok ∨
      ∃ m, (s3_to_bq env a disk0).outcome = .retFailure m) :
    ∀ k ∈ env.listing, env.download k = .ok → env.gsUploadOk k = true →
      tmpPath k ∉ (s3_to_bq env a disk0).disk := by
  rcases hke : (if a.s3Key.isNone && a.objectName.isSome then a.objectName else a.s3Key)
    with _ | sk <;> simp only [s3_to_bq, hke] at hout ⊢
  · rcases hout with hout | ⟨m, hout⟩ <;> cases hout
  · rcases hls : env.listing with _ | ⟨k1, _ | ⟨k2, rest⟩⟩ <;>
      simp only [hls] at hout ⊢
    · rcases hout with hout | ⟨m, hout⟩ <;> cases hout
    · -- single matched key
      split_ifs at hout ⊢ with g1 g2 g3
      · rcases hout with hout | ⟨m, hout⟩ <;> cases hout
      · rcases hout with hout | ⟨m, hout⟩ <;> cases hout
      · rcases hout with hout | ⟨m, hout⟩ <;> cases hout
      · cases hdk : env.download k1 <;> simp only [singlePath, hdk] at hout ⊢
        · split_ifs at hout ⊢ with hgs hfn hup <;>
            first
              | (rcases hout with hout | ⟨m, hout⟩ <;> cases hout)
              | (intro k hk h1 h2
                 rw [List.mem_singleton] at hk
                 subst hk
                 exact loadStage_cleanup hout (tmpPath k) (List.mem_singleton.mpr rfl))
        · rcases hout with hout | ⟨m, hout⟩ <;> cases hout
        · rcases hout with hout | ⟨m, hout⟩ <;> cases hout
    · -- multiple matched keys
      split_ifs at hout ⊢ with g1 g2 g3
      · rcases hout with hout | ⟨m, hout⟩ <;> cases hout
      · rcases hout with hout | ⟨m, hout⟩ <;> cases hout
      · rcases hout with hout | ⟨m, hout⟩ <;> cases hout
      · simp only [multiPath] at hout ⊢
        split_ifs at hout ⊢ with hgs
        · rcases hout with hout | ⟨m, hout⟩ <;> cases hout
        · cases hl1 : loop1 env (k1 :: k2 :: rest)
              ⟨(St.mk [] disk0).emit (.listKeys (k1 :: k2 :: rest)), [], [], [], [], [], []⟩ <;>
            simp only [hl1] at hout ⊢
          · rename_i b2
            split_ifs at hout ⊢ with m1 m2 m3 m4 m5
            · rcases hout with hout | ⟨m, hout⟩ <;> cases hout
            · rcases hout with hout | ⟨m, hout⟩ <;> cases hout
            · rcases hout with hout | ⟨m, hout⟩ <;> cases hout
            · rcases hout with hout | ⟨m, hout⟩ <;> cases hout
            · rcases hout with hout | ⟨m, hout⟩ <;> cases hout
            · cases hl2 : loop2 env (a.gsBucketName.getD "") a.gsFileName (k1 :: k2 :: rest)
                  ⟨b2.st, [], []⟩ <;> simp only [hl2] at hout ⊢
              · rename_i u
                split_ifs at hout ⊢ with hemp
                · rcases hout with hout | ⟨m, hout⟩ <;> cases hout
                · intro k hk h1 h2
                  exact loadStage_cleanup hout (tmpPath k)
                    (loop2_mem_localFiles hl2 k hk h1 h2)
              · rename_i r
                rcases hout with hout | ⟨m, hout⟩ <;>
                  (rw [loop2_inr_outcome hl2] at hout; cases hout)
          · rename_i r
            rcases hout with hout | ⟨m, hout⟩ <;>
              (rw [loop1_inr_outcome hl1] at hout; cases hout)

/-- Witness for C1 amended: a fully successful single-key run ends with
the staged file deleted. -/
theorem C1_witness :
    (s3_to_bq envC1w argsC1w []).outcome = .ok ∧
    tmpPath "a.csv" ∉ (s3_to_bq envC1w argsC1w []).disk :=
  ⟨by decide, C1_amended_cleanup envC1w argsC1w [] (Or.inl (by decide)) "a.csv"
    (by decide) rfl rfl⟩

/-- Witness for C2: the mixed-format batch raises and both staged files
are removed. -/
theorem C2_witness :
    (∃ m, (s3_to_bq envC2w argsC2w []).outcome = .raised (.runtimeError m)) ∧
    ∀ k ∈ envC2w.listing, tmpPath k ∉ (s3_to_bq envC2w argsC2w []).disk :=
  C2_schema_mismatch_cleanup envC2w argsC2w [] "pre" rfl rfl (by decide) (by decide)
    rfl rfl (fun _ _ => rfl) (fun _ _ => rfl)
    (Or.inl ⟨"a.csv", by decide, "b.json", by decide, by decide⟩)

end ToDataLibrary
